import Mathlib

/-!
# Verification of the snowbridge Ethereum beacon light client excerpt

Shallow embedding of the `ethereum-beacon-client`, `basic-channel/outbound`,
`outbound-queue` and `inbound-queue` pallet excerpts of the snowbridge
repository, together with a model of the light-client verification core,
which is described by the specification but whose implementation file is not
part of the excerpt.  Definitions taken verbatim from the excerpt are named
after their source items; definitions of the missing core carry a
`Modelled from the spec:` doc comment.
-/

set_option maxHeartbeats 1000000
set_option maxRecDepth 8192

/-- A byte, kept as `Nat` with values below 256 in all concrete data. -/
abbrev Byte := Nat

/-- A 32-byte hash (`H256` in the source), modelled as a list of bytes. -/
abbrev H256 := List Byte

/-- A BLS public key (48 bytes in the source), modelled as a list of bytes. -/
abbrev PublicKey := List Byte

/-- `BeaconHeader` from `snowbridge_beacon_primitives`:
slot, proposer index and the parent/state/body roots. -/
structure BeaconHeader where
  slot : Nat
  proposer_index : Nat
  parent_root : H256
  state_root : H256
  body_root : H256
deriving DecidableEq

/-- `SyncCommittee`: bounded ordered list of BLS public keys plus the
aggregate public key. -/
structure SyncCommittee where
  pubkeys : List PublicKey
  aggregate_pubkey : PublicKey
deriving DecidableEq

/-- `SyncAggregate`: participation bitfield (one bit per committee member)
and the aggregate BLS signature. -/
structure SyncAggregate where
  sync_committee_bits : List Bool
  sync_committee_signature : List Byte
deriving DecidableEq

/-- `Fork` from `snowbridge_beacon_primitives`: a 4-byte version tag and the
activation epoch. -/
structure Fork where
  version : List Byte
  epoch : Nat
deriving DecidableEq

/-- `ForkVersions` from `snowbridge_beacon_primitives`: the four fork entries
(genesis, altair, bellatrix, capella) of a fork schedule. -/
structure ForkVersions where
  genesis : Fork
  altair : Fork
  bellatrix : Fork
  capella : Fork
deriving DecidableEq

/-- `CompactExecutionHeader` from `snowbridge_beacon_primitives`: the durable
projection of an execution-chain header. -/
structure CompactExecutionHeader where
  parent_hash : H256
  block_number : Nat
  state_root : H256
  receipts_root : H256
deriving DecidableEq

/-- `ChainForkVersions` of `mock.rs`, `mock_minimal` runtime (lines 83-100):
all four forks activate at epoch 0. -/
def chainForkVersionsMinimal : ForkVersions :=
  { genesis := { version := [0, 0, 0, 1], epoch := 0 }
  , altair := { version := [1, 0, 0, 1], epoch := 0 }
  , bellatrix := { version := [2, 0, 0, 1], epoch := 0 }
  , capella := { version := [3, 0, 0, 1], epoch := 0 } }

/-- `ChainForkVersions` of `mock.rs`, `mock_mainnet` runtime (lines 189-206). -/
def chainForkVersionsMainnet : ForkVersions :=
  { genesis := { version := [0, 0, 16, 32], epoch := 0 }
  , altair := { version := [1, 0, 16, 32], epoch := 36660 }
  , bellatrix := { version := [2, 0, 16, 32], epoch := 112260 }
  , capella := { version := [3, 0, 16, 32], epoch := 162304 } }

/-- The fork schedule as an ordered list (genesis, altair, bellatrix,
capella), the order in which `ForkVersions` declares its fields. -/
def forkScheduleList (fv : ForkVersions) : List Fork :=
  [fv.genesis, fv.altair, fv.bellatrix, fv.capella]

/-- The four fork epochs are strictly ascending (the ordering claimed for
every configured schedule). -/
def strictAscendingEpochs (fv : ForkVersions) : Prop :=
  fv.genesis.epoch < fv.altair.epoch ∧ fv.altair.epoch < fv.bellatrix.epoch ∧
    fv.bellatrix.epoch < fv.capella.epoch

instance (fv : ForkVersions) : Decidable (strictAscendingEpochs fv) := by
  unfold strictAscendingEpochs; infer_instance

/-- The four fork epochs are non-decreasing. -/
def nonDecreasingEpochs (fv : ForkVersions) : Prop :=
  fv.genesis.epoch ≤ fv.altair.epoch ∧ fv.altair.epoch ≤ fv.bellatrix.epoch ∧
    fv.bellatrix.epoch ≤ fv.capella.epoch

instance (fv : ForkVersions) : Decidable (nonDecreasingEpochs fv) := by
  unfold nonDecreasingEpochs; infer_instance

/-- The errors of the verification core (spec §7). -/
inductive BeaconError where
  | ForkVersionNotFound
  | InvalidMerkleProof
  | InsufficientSyncCommitteeParticipants
  | InvalidSyncCommitteeSignature
  | SkippedSyncCommitteePeriod
  | StaleUpdate
  | ExecutionHeaderAlreadyImported
  | NotBootstrapped
  | AlreadyBootstrapped
deriving DecidableEq

/-- Modelled from the spec: fork selection (§4.1, §2 data model) — from an
ordered-by-epoch schedule pick the greatest entry whose epoch is ≤ the
target epoch; if the target epoch precedes every entry the genesis (head)
entry is used; fails with `ForkVersionNotFound` only on an empty schedule.
The resolver implementation is not part of the excerpt. -/
def select_fork : List Fork → Nat → Except BeaconError Fork
  | [], _ => .error .ForkVersionNotFound
  | [f], _ => .ok f
  | f :: g :: rest, e => if g.epoch ≤ e then select_fork (g :: rest) e else .ok f

/-- Modelled from the spec: fork-version resolution over a `ForkVersions`
schedule at a given epoch. -/
def compute_fork_version (fv : ForkVersions) (epoch : Nat) :
    Except BeaconError (List Byte) :=
  (select_fork (forkScheduleList fv) epoch).map Fork.version

/-- Modelled from the spec: `epoch = slot / SLOTS_PER_EPOCH` (§4.1); the
constant itself is not part of the excerpt, so it is kept as an argument. -/
def compute_epoch_at_slot (slot slotsPerEpoch : Nat) : Nat :=
  slot / slotsPerEpoch

theorem select_fork_ok_of_cons (f : Fork) (rest : List Fork) (e : Nat) :
    ∃ g, select_fork (f :: rest) e = .ok g := by
  induction rest generalizing f with
  | nil => exact ⟨f, rfl⟩
  | cons g rest ih =>
    by_cases h : g.epoch ≤ e
    · simpa [select_fork, h] using ih g
    · exact ⟨f, by simp [select_fork, h]⟩

/-!
## Weights (`weights.rs` of `ethereum-beacon-client` and
`basic-channel/src/outbound`)

The excerpt's weight functions use Substrate's two-component `Weight`
(reference time and proof size, both `u64`) with saturating arithmetic, and
the `RocksDbWeight` database-weight constants (25 µs per read, 100 µs per
write, in picoseconds).
-/

/-- Largest `u64` value; Substrate weight components saturate here. -/
def U64_MAX : Nat := 18446744073709551615

/-- Saturating `u64` addition. -/
def satAdd (a b : Nat) : Nat := min (a + b) U64_MAX

/-- Saturating `u64` multiplication. -/
def satMul (a b : Nat) : Nat := min (a * b) U64_MAX

/-- Substrate `Weight`: reference time and proof size in `u64`. -/
structure Weight where
  ref_time : Nat
  proof_size : Nat
deriving DecidableEq

/-- `Weight::from_parts`. -/
def Weight.from_parts (r p : Nat) : Weight := ⟨r, p⟩

/-- `Weight::from_ref_time`: proof size component is zero. -/
def Weight.from_ref_time (r : Nat) : Weight := ⟨r, 0⟩

/-- `Weight::saturating_add`: component-wise saturating addition. -/
def Weight.saturating_add (w v : Weight) : Weight :=
  ⟨satAdd w.ref_time v.ref_time, satAdd w.proof_size v.proof_size⟩

/-- `Weight::saturating_mul` by a scalar: both components saturating. -/
def Weight.saturating_mul (w : Weight) (n : Nat) : Weight :=
  ⟨satMul w.ref_time n, satMul w.proof_size n⟩

/-- Component-wise order on weights. -/
def Weight.le (w v : Weight) : Prop :=
  w.ref_time ≤ v.ref_time ∧ w.proof_size ≤ v.proof_size

instance (w v : Weight) : Decidable (Weight.le w v) := by
  unfold Weight.le; infer_instance

/-- `RuntimeDbWeight`: per-read and per-write database weight. -/
structure RuntimeDbWeight where
  read : Nat
  write : Nat
deriving DecidableEq

/-- `RocksDbWeight` of `frame_support::weights::constants`. -/
def RocksDbWeight : RuntimeDbWeight := ⟨25000000, 100000000⟩

/-- `RuntimeDbWeight::reads`: weight of `n` database reads. -/
def RuntimeDbWeight.reads (db : RuntimeDbWeight) (n : Nat) : Weight :=
  ⟨satMul db.read n, 0⟩

/-- `RuntimeDbWeight::writes`: weight of `n` database writes. -/
def RuntimeDbWeight.writes (db : RuntimeDbWeight) (n : Nat) : Weight :=
  ⟨satMul db.write n, 0⟩

/-- `submit_with_sync_committee` of `impl WeightInfo for ()`
(`ethereum-beacon-client/src/weights.rs` lines 44-48). -/
def BeaconWeightInfo.submit_with_sync_committee : Weight :=
  ((Weight.from_parts 175039777000 0).saturating_add
      (RocksDbWeight.reads 4)).saturating_add (RocksDbWeight.writes 2)

/-- `submit` of `impl WeightInfo for ()` (lines 49-53). -/
def BeaconWeightInfo.submit : Weight :=
  ((Weight.from_parts 171871518000 0).saturating_add
      (RocksDbWeight.reads 3)).saturating_add (RocksDbWeight.writes 1)

/-- `submit_execution_header` of `impl WeightInfo for ()` (lines 54-58). -/
def BeaconWeightInfo.submit_execution_header : Weight :=
  ((Weight.from_parts 166011885000 0).saturating_add
      (RocksDbWeight.reads 3)).saturating_add (RocksDbWeight.writes 1)

/-- `force_checkpoint` of `impl WeightInfo for ()` (lines 59-63). -/
def BeaconWeightInfo.force_checkpoint : Weight :=
  ((Weight.from_parts 175039777000 0).saturating_add
      (RocksDbWeight.reads 4)).saturating_add (RocksDbWeight.writes 2)

/-- `on_commit` of `SnowbridgeWeight<T>` in
`basic-channel/src/outbound/weights.rs` (lines 51-59); the runtime's
`T::DbWeight` is passed as the `db` argument. -/
def SnowbridgeWeight.on_commit (db : RuntimeDbWeight) (m p : Nat) : Weight :=
  (((((Weight.from_ref_time 3294000).saturating_add
      ((Weight.from_ref_time 100849000).saturating_mul m)).saturating_add
      ((Weight.from_ref_time 3880000).saturating_mul p)).saturating_add
      (db.reads 3)).saturating_add (db.writes 2))

/-- `on_commit_no_messages` of `SnowbridgeWeight<T>` (lines 47-50). -/
def SnowbridgeWeight.on_commit_no_messages (db : RuntimeDbWeight) : Weight :=
  (Weight.from_ref_time 5228000).saturating_add (db.reads 2)

/-- `on_commit` of `impl WeightInfo for ()` in
`basic-channel/src/outbound/weights.rs` (lines 68-76). -/
def UnitWeightInfo.on_commit (m p : Nat) : Weight :=
  (((((Weight.from_ref_time 0).saturating_add
      ((Weight.from_ref_time 100849000).saturating_mul m)).saturating_add
      ((Weight.from_ref_time 3880000).saturating_mul p)).saturating_add
      (RocksDbWeight.reads 3)).saturating_add (RocksDbWeight.writes 2))

/-- `on_commit_no_messages` of `impl WeightInfo for ()` (lines 64-67). -/
def UnitWeightInfo.on_commit_no_messages : Weight :=
  (Weight.from_ref_time 5228000).saturating_add (RocksDbWeight.reads 2)

/-!
## Inbound-queue benchmark fixture
(`inbound-queue/src/benchmarking/fixtures.rs`)
-/

/-- `Log` of `snowbridge_core::inbound`: an Ethereum event log. -/
structure Log where
  address : List Byte
  topics : List H256
  data : List Byte
deriving DecidableEq

/-- `Proof` of `snowbridge_core::inbound`: a receipt-inclusion proof; `data`
pairs the key list with the node list. -/
structure Proof where
  block_hash : H256
  tx_index : Nat
  data : List (List Byte) × List (List Byte)
deriving DecidableEq

/-- `Message` of `snowbridge_core::inbound`. -/
structure Message where
  event_log : Log
  proof : Proof
deriving DecidableEq

/-- `InboundQueueTest` of `fixtures.rs` (lines 6-9). -/
structure InboundQueueTest where
  execution_header : CompactExecutionHeader
  message : Message
deriving DecidableEq

/-- Fixture bytes (32 of them), hex prefix 8f69b84ec2fe39b299005cf30e855a2b. -/
def fixture_eh_parent_hash : List Byte :=
  [
  143, 105, 184, 78, 194, 254, 57, 178, 153, 0, 92, 243, 14, 133, 90, 43, 205, 217, 151,
  221, 30, 95, 121, 119, 114, 113, 22, 0, 21, 219, 106, 227
  ]

/-- Fixture bytes (32 of them), hex prefix 3f744f5e0322312fbcd6ea06e4e3db6c. -/
def fixture_eh_state_root : List Byte :=
  [
  63, 116, 79, 94, 3, 34, 49, 47, 188, 214, 234, 6, 228, 227, 219, 108, 248, 255, 138, 98,
  88, 238, 79, 98, 29, 245, 113, 101, 195, 150, 72, 6
  ]

/-- Fixture bytes (32 of them), hex prefix b4e733e6a4545303220f9954b9e895ec. -/
def fixture_eh_receipts_root : List Byte :=
  [
  180, 231, 51, 230, 164, 84, 83, 3, 34, 15, 153, 84, 185, 232, 149, 236, 243, 30, 93,
  111, 225, 85, 127, 39, 160, 37, 74, 1, 19, 47, 56, 167
  ]

/-- Fixture bytes (20 of them), hex prefix eda338e4dc46038493b885327842fd3e. -/
def fixture_log_address : List Byte :=
  [
  237, 163, 56, 228, 220, 70, 3, 132, 147, 184, 133, 50, 120, 66, 253, 62, 48, 28, 171, 57
  ]

/-- Fixture bytes (32 of them), hex prefix 7153f9357c8ea496bba60bf82e67143e. -/
def fixture_topic0 : List Byte :=
  [
  113, 83, 249, 53, 124, 142, 164, 150, 187, 166, 11, 248, 46, 103, 20, 62, 39, 182, 68,
  98, 180, 144, 65, 248, 230, 137, 225, 176, 87, 40, 248, 79
  ]

/-- Fixture bytes (32 of them), hex prefix c173fac324158e77fb5840738a1a541f. -/
def fixture_topic1 : List Byte :=
  [
  193, 115, 250, 195, 36, 21, 142, 119, 251, 88, 64, 115, 138, 26, 84, 31, 99, 60, 190,
  200, 136, 76, 106, 96, 28, 86, 125, 43, 55, 106, 5, 57
  ]

/-- Fixture bytes (32 of them), hex prefix 5f7060e971b0dc81e63f0aa418310918. -/
def fixture_topic2 : List Byte :=
  [
  95, 112, 96, 233, 113, 176, 220, 129, 230, 63, 10, 164, 24, 49, 9, 24, 71, 217, 124, 26,
  70, 147, 172, 69, 12, 193, 40, 199, 33, 78, 101, 224
  ]

/-- Fixture bytes (160 of them), hex prefix 00000000000000000000000000000000. -/
def fixture_log_data : List Byte :=
  [
  0, 0, 0, 0, 0, 0, 0, 0, 0, 0, 0, 0, 0, 0, 0, 0, 0, 0, 0, 0, 0, 0, 0, 0, 0, 0, 0, 0, 0,
  0, 0, 1, 0, 0, 0, 0, 0, 0, 0, 0, 0, 0, 0, 0, 0, 0, 0, 0, 0, 0, 0, 0, 0, 0, 0, 0, 0, 0,
  0, 0, 0, 0, 0, 64, 0, 0, 0, 0, 0, 0, 0, 0, 0, 0, 0, 0, 0, 0, 0, 0, 0, 0, 0, 0, 0, 0, 0,
  0, 0, 0, 0, 0, 0, 0, 0, 46, 0, 15, 0, 0, 0, 0, 0, 0, 0, 0, 135, 209, 247, 253, 254, 231,
  246, 81, 250, 188, 139, 252, 182, 224, 134, 194, 120, 183, 122, 125, 0, 228, 11, 84, 2,
  0, 0, 0, 0, 0, 0, 0, 0, 0, 0, 0, 0, 0, 0, 0, 0, 0, 0, 0, 0, 0, 0, 0, 0, 0, 0, 0, 0, 0
  ]

/-- Fixture bytes (32 of them), hex prefix 7ce27351fff56e7f0f28774766ad46dc. -/
def fixture_proof_block_hash : List Byte :=
  [
  124, 226, 115, 81, 255, 245, 110, 127, 15, 40, 119, 71, 102, 173, 70, 220, 249, 192, 94,
  92, 197, 207, 44, 25, 20, 222, 8, 179, 77, 163, 208, 201
  ]

/-- Fixture bytes (32 of them), hex prefix b4e733e6a4545303220f9954b9e895ec. -/
def fixture_proof_key0 : List Byte :=
  [
  180, 231, 51, 230, 164, 84, 83, 3, 34, 15, 153, 84, 185, 232, 149, 236, 243, 30, 93,
  111, 225, 85, 127, 39, 160, 37, 74, 1, 19, 47, 56, 167
  ]

/-- Fixture bytes (624 of them), hex prefix f9026d822080b9026702f90263018301. -/
def fixture_proof_value0 : List Byte :=
  [
  249, 2, 109, 130, 32, 128, 185, 2, 103, 2, 249, 2, 99, 1, 131, 1, 80, 223, 185, 1, 0, 0,
  0, 0, 0, 0, 0, 0, 0, 0, 0, 0, 0, 0, 0, 0, 0, 0, 0, 0, 0, 0, 0, 0, 64, 0, 0, 0, 0, 0, 0,
  0, 0, 0, 0, 0, 0, 0, 0, 0, 0, 0, 0, 0, 0, 0, 0, 0, 0, 16, 0, 0, 0, 0, 0, 0, 0, 0, 0, 0,
  0, 0, 0, 0, 0, 0, 0, 0, 0, 0, 0, 0, 0, 0, 8, 0, 0, 0, 0, 0, 0, 0, 0, 0, 0, 0, 0, 0, 0,
  0, 64, 0, 0, 0, 0, 8, 0, 0, 0, 0, 0, 0, 0, 0, 0, 0, 0, 0, 0, 0, 0, 0, 0, 1, 1, 0, 0, 0,
  0, 0, 0, 0, 0, 0, 0, 0, 0, 0, 0, 0, 0, 2, 0, 0, 0, 0, 0, 0, 0, 0, 0, 0, 0, 0, 0, 0, 0,
  0, 0, 0, 0, 0, 0, 0, 0, 0, 0, 0, 0, 0, 0, 0, 0, 0, 4, 0, 4, 0, 0, 0, 0, 0, 0, 0, 32, 0,
  0, 32, 0, 0, 0, 0, 0, 0, 0, 0, 0, 0, 0, 0, 0, 0, 0, 0, 0, 0, 0, 0, 0, 0, 0, 0, 0, 0, 0,
  0, 0, 0, 0, 0, 0, 0, 0, 0, 0, 0, 0, 0, 0, 0, 0, 0, 0, 0, 0, 0, 0, 0, 0, 0, 0, 0, 0, 0,
  0, 0, 0, 0, 0, 0, 1, 0, 0, 0, 0, 0, 0, 0, 0, 2, 0, 0, 0, 0, 0, 0, 16, 249, 1, 88, 248,
  88, 148, 237, 163, 56, 228, 220, 70, 3, 132, 147, 184, 133, 50, 120, 66, 253, 62, 48,
  28, 171, 57, 225, 160, 247, 139, 178, 141, 75, 29, 125, 166, 153, 229, 192, 188, 43,
  226, 156, 43, 4, 181, 170, 182, 170, 207, 98, 152, 254, 83, 4, 249, 219, 156, 109, 126,
  160, 0, 0, 0, 0, 0, 0, 0, 0, 0, 0, 0, 0, 135, 209, 247, 253, 254, 231, 246, 81, 250,
  188, 139, 252, 182, 224, 134, 194, 120, 183, 122, 125, 248, 252, 148, 237, 163, 56, 228,
  220, 70, 3, 132, 147, 184, 133, 50, 120, 66, 253, 62, 48, 28, 171, 57, 248, 99, 160,
  113, 83, 249, 53, 124, 142, 164, 150, 187, 166, 11, 248, 46, 103, 20, 62, 39, 182, 68,
  98, 180, 144, 65, 248, 230, 137, 225, 176, 87, 40, 248, 79, 160, 193, 115, 250, 195, 36,
  21, 142, 119, 251, 88, 64, 115, 138, 26, 84, 31, 99, 60, 190, 200, 136, 76, 106, 96, 28,
  86, 125, 43, 55, 106, 5, 57, 160, 95, 112, 96, 233, 113, 176, 220, 129, 230, 63, 10,
  164, 24, 49, 9, 24, 71, 217, 124, 26, 70, 147, 172, 69, 12, 193, 40, 199, 33, 78, 101,
  224, 184, 128, 0, 0, 0, 0, 0, 0, 0, 0, 0, 0, 0, 0, 0, 0, 0, 0, 0, 0, 0, 0, 0, 0, 0, 0,
  0, 0, 0, 0, 0, 0, 0, 1, 0, 0, 0, 0, 0, 0, 0, 0, 0, 0, 0, 0, 0, 0, 0, 0, 0, 0, 0, 0, 0,
  0, 0, 0, 0, 0, 0, 0, 0, 0, 0, 64, 0, 0, 0, 0, 0, 0, 0, 0, 0, 0, 0, 0, 0, 0, 0, 0, 0, 0,
  0, 0, 0, 0, 0, 0, 0, 0, 0, 0, 0, 0, 0, 30, 0, 15, 0, 0, 0, 0, 0, 0, 0, 0, 135, 209, 247,
  253, 254, 231, 246, 81, 250, 188, 139, 252, 182, 224, 134, 194, 120, 183, 122, 125, 0, 0
  ]
/-- `make_create_message` of `fixtures.rs` (lines 11-40), with every hex
literal expanded to its byte list. -/
def make_create_message : InboundQueueTest :=
  { execution_header :=
      { parent_hash := fixture_eh_parent_hash
      , block_number := 188
      , state_root := fixture_eh_state_root
      , receipts_root := fixture_eh_receipts_root }
  , message :=
      { event_log :=
          { address := fixture_log_address
          , topics := [fixture_topic0, fixture_topic1, fixture_topic2]
          , data := fixture_log_data }
      , proof :=
          { block_hash := fixture_proof_block_hash
          , tx_index := 0
          , data := ([fixture_proof_key0], [fixture_proof_value0]) } } }

/-!
## The verification core, modelled from the spec

The implementation file of the light client (state machine, Merkle
verifier, sync-committee verifier) is not part of the excerpt; only its
mock runtimes, weights, tests and fixtures are.  The definitions below are
therefore modelled from the specification (§4.1-§4.5, §7), with the
configuration constants that *are* in the excerpt (`mock.rs`) taken from
there.  Cryptographic primitives (SHA-256, hash-tree-roots, BLS pairing
checks, elliptic-curve point addition) are kept as parameters of an
environment structure: every theorem below holds for every choice of
these functions.
-/

/-- `MaxProofBranchSize` of `mock.rs` (line 74 minimal, line 180 mainnet):
both runtimes configure 20. -/
def MaxProofBranchSize : Nat := 20

/-- `MaxFinalizedHeaderSlotArray` of `mock.rs` (lines 81 and 187): capacity
of the execution-header store, 1000 in both runtimes. -/
def MaxFinalizedHeaderSlotArray : Nat := 1000

/-- Modelled from the spec: `SYNC_COMMITTEE_SIZE` — `mock.rs` line 73 sets
`MaxSyncCommitteeSize = config::SYNC_COMMITTEE_SIZE as u32`, but the
`config` module is not in the excerpt; the spec (§3, §8) fixes the
configured committee size at 512. -/
def SYNC_COMMITTEE_SIZE : Nat := 512

/-- Modelled from the spec: popcount of the participation bitfield (§4.3). -/
def sync_committee_participation (bits : List Bool) : Nat :=
  bits.count true

/-- Modelled from the spec (§4.3, invariant 4): reject with
`InsufficientSyncCommitteeParticipants` unless strictly more than two
thirds of the committee participate, i.e. unless
`popcount(bits) > 2/3 * committee_size`, rendered over the integers as
`3 * popcount(bits) > 2 * committee_size`. -/
def check_participation (bits : List Bool) (committee_size : Nat) :
    Except BeaconError Unit :=
  if 2 * committee_size < 3 * sync_committee_participation bits then .ok ()
  else .error .InsufficientSyncCommitteeParticipants

/-- Modelled from the spec (§4.2): fold a Merkle branch from the leaf
upward; the bit of the generalized index at each depth chooses whether the
accumulated hash is the left or the right child. `hash2` stands for SHA-256
over the 64-byte concatenation of the two arguments. -/
def merkle_fold (hash2 : H256 → H256 → H256) :
    H256 → List H256 → Nat → H256
  | leaf, [], _ => leaf
  | leaf, sibling :: rest, index =>
      merkle_fold hash2
        (if index % 2 = 1 then hash2 sibling leaf else hash2 leaf sibling)
        rest (index / 2)

/-- Modelled from the spec (§4.2): depth-bounded Merkle-branch inclusion
check; a branch longer than `MaxProofBranchSize` is rejected as
`InvalidMerkleProof` without computing, otherwise the folded root must equal
the expected root. -/
def merkle_branch_verify (hash2 : H256 → H256 → H256) (leaf : H256)
    (branch : List H256) (generalized_index : Nat) (root : H256) :
    Except BeaconError Unit :=
  if MaxProofBranchSize < branch.length then .error .InvalidMerkleProof
  else if merkle_fold hash2 leaf branch generalized_index = root then .ok ()
  else .error .InvalidMerkleProof

/-- Modelled from the spec: generalized-index constant for the current
sync committee inside the beacon state; exact value not in the excerpt
(standard altair layout value used; no theorem depends on it). -/
def CURRENT_SYNC_COMMITTEE_INDEX : Nat := 54

/-- Modelled from the spec: generalized index of the next sync committee. -/
def NEXT_SYNC_COMMITTEE_INDEX : Nat := 55

/-- Modelled from the spec: generalized index of the finalized checkpoint
root. -/
def FINALIZED_ROOT_INDEX : Nat := 105

/-- Modelled from the spec: generalized index of the execution payload
inside the beacon block body. -/
def EXECUTION_PAYLOAD_INDEX : Nat := 25

/-- Modelled from the spec: slots per sync-committee period
(`SLOTS_PER_EPOCH * EPOCHS_PER_SYNC_COMMITTEE_PERIOD`); value not in the
excerpt, standard mainnet value used; no theorem depends on it. -/
def SLOTS_PER_SYNC_COMMITTEE_PERIOD : Nat := 8192

/-- Modelled from the spec: the sync-committee period of a slot. -/
def compute_sync_committee_period (slot : Nat) : Nat :=
  slot / SLOTS_PER_SYNC_COMMITTEE_PERIOD

/-- Modelled from the spec (§4.1): the sync-committee domain type tag
(first 4 bytes of the 32-byte domain). -/
def DOMAIN_SYNC_COMMITTEE : List Byte := [7, 0, 0, 0]

/-- Modelled from the spec (§4.1): the fork version padded to 32 bytes. -/
def pad_fork_version (version : List Byte) : List Byte :=
  version ++ List.replicate 28 0

/-- Modelled from the spec (§4.1): 32-byte signing domain — 4 domain-type
bytes followed by the first 28 bytes of
`hash(fork_version_padded ++ validators_root)`; `hash32` stands for
SHA-256. -/
def compute_domain (hash32 : List Byte → H256) (version : List Byte)
    (validators_root : H256) : H256 :=
  DOMAIN_SYNC_COMMITTEE.take 4 ++
    (hash32 (pad_fork_version version ++ validators_root)).take 28

/-- `InitialSync` (spec §3): bootstrap message. -/
structure InitialSync where
  header : BeaconHeader
  current_sync_committee : SyncCommittee
  current_sync_committee_branch : List H256
  validators_root : H256
deriving DecidableEq

/-- `SyncCommitteePeriodUpdate` (spec §3). -/
structure SyncCommitteePeriodUpdate where
  attested_header : BeaconHeader
  next_sync_committee : SyncCommittee
  next_sync_committee_branch : List H256
  finalized_header : BeaconHeader
  finality_branch : List H256
  sync_aggregate : SyncAggregate
  signature_slot : Nat
  sync_committee_period : Nat
deriving DecidableEq

/-- `FinalizedHeaderUpdate` (spec §3): the same shape without the
next-sync-committee fields. -/
structure FinalizedHeaderUpdate where
  attested_header : BeaconHeader
  finalized_header : BeaconHeader
  finality_branch : List H256
  sync_aggregate : SyncAggregate
  signature_slot : Nat
  sync_committee_period : Nat
deriving DecidableEq

/-- `HeaderUpdate` (spec §3): execution-chain fields plus the Merkle branch
proving inclusion of the execution payload in a finalized beacon block
body; the block hash keys the duplicate check (§4.4). -/
structure HeaderUpdate where
  block_hash : H256
  parent_hash : H256
  block_number : Nat
  state_root : H256
  receipts_root : H256
  fee_recipient : List Byte
  logs_bloom : List Byte
  extra_data : List Byte
  execution_branch : List H256
deriving DecidableEq

/-- The `CompactExecutionHeader` projection stored after a successful
`HeaderUpdate` (spec §3). -/
def HeaderUpdate.toCompact (u : HeaderUpdate) : CompactExecutionHeader :=
  { parent_hash := u.parent_hash
  , block_number := u.block_number
  , state_root := u.state_root
  , receipts_root := u.receipts_root }

/-- `LightClientState` (spec §2, §4.4): the trusted state stored by the
pallet once bootstrapped. -/
structure LightClientStore where
  validators_root : H256
  current_sync_committee : SyncCommittee
  next_sync_committee : SyncCommittee
  finalized_header : BeaconHeader
  sync_committee_period : Nat
deriving DecidableEq

/-- The lifecycle phase (spec §4.4): `Uninitialized`, or operational with a
stored `LightClientStore`.  The spec's `Bootstrapped` is merged into
`Synced` — the bootstrap transition goes to `Bootstrapped/Synced` and all
submissions other than the bootstrap require `Synced`. -/
inductive LightClientPhase where
  | Uninitialized
  | Synced (store : LightClientStore)
deriving DecidableEq

/-- The whole observable pallet state: light-client phase plus the bounded
execution-header store (keyed by block hash, insertion order kept). -/
structure ChainState where
  phase : LightClientPhase
  exec_headers : List (H256 × CompactExecutionHeader)
deriving DecidableEq

/-- Modelled from the spec: the cryptographic and configuration environment
of the core.  SHA-256 (`hash2`, `hash32`), the SSZ hash-tree-roots
(`htr_header`, `htr_committee`, `htr_execution`), elliptic-curve point
aggregation (`aggregate_points`, `none` on malformed points) and BLS
pairing verification (`bls_verify`) are parameters: every theorem holds
for every choice.  `within_weak_subjectivity now slot` renders invariant 7,
whose exact boundary the spec leaves configurable (§9). -/
structure Env where
  hash2 : H256 → H256 → H256
  hash32 : List Byte → H256
  htr_header : BeaconHeader → H256
  htr_committee : SyncCommittee → H256
  htr_execution : HeaderUpdate → H256
  aggregate_points : List PublicKey → Option PublicKey
  bls_verify : PublicKey → List Byte → H256 → Bool
  fork_versions : ForkVersions
  slots_per_epoch : Nat
  within_weak_subjectivity : Nat → Nat → Bool

/-- Modelled from the spec (§4.3): the public keys whose participation bit
is set, skipping absent members. -/
def participant_pubkeys (pubkeys : List PublicKey) (bits : List Bool) :
    List PublicKey :=
  (List.zip pubkeys bits).filterMap fun pb => if pb.2 then some pb.1 else none

/-- Modelled from the spec (§4.3): the sync-committee verifier — the
participation check, then the fork-aware domain for the signature slot,
the signing root, point aggregation and the BLS pairing check; every
failure after the participation check is `InvalidSyncCommitteeSignature`
(fail-closed). -/
def verify_sync_aggregate (env : Env) (committee : SyncCommittee)
    (agg : SyncAggregate) (attested : BeaconHeader) (signature_slot : Nat)
    (validators_root : H256) : Except BeaconError Unit :=
  match check_participation agg.sync_committee_bits SYNC_COMMITTEE_SIZE with
  | .error e => .error e
  | .ok _ =>
    match compute_fork_version env.fork_versions
        (compute_epoch_at_slot signature_slot env.slots_per_epoch) with
    | .error e => .error e
    | .ok version =>
      let domain := compute_domain env.hash32 version validators_root
      let signing_root := env.hash2 (env.htr_header attested) domain
      match env.aggregate_points
          (participant_pubkeys committee.pubkeys agg.sync_committee_bits) with
      | none => .error .InvalidSyncCommitteeSignature
      | some apk =>
        if env.bls_verify apk agg.sync_committee_signature signing_root
        then .ok () else .error .InvalidSyncCommitteeSignature

/-- Modelled from the spec (§4.4): the store written by a bootstrap
(`submit_initial_sync` / `force_checkpoint`).  The spec does not say what
the *next* committee is before the first period update; it is initialised
to the current committee (no theorem depends on this choice — the rotation
theorems talk about the committee stored at the time of the update). -/
def bootstrap_store (u : InitialSync) : LightClientStore :=
  { validators_root := u.validators_root
  , current_sync_committee := u.current_sync_committee
  , next_sync_committee := u.current_sync_committee
  , finalized_header := u.header
  , sync_committee_period := compute_sync_committee_period u.header.slot }

/-- Modelled from the spec (§4.4): `submit_initial_sync` — valid only from
`Uninitialized`; verifies the current-sync-committee branch against the
header's state root, then stores validators root, committee, finalized
header and period. -/
def submit_initial_sync (env : Env) (s : ChainState) (u : InitialSync) :
    Except BeaconError ChainState :=
  match s.phase with
  | .Synced _ => .error .AlreadyBootstrapped
  | .Uninitialized =>
    match merkle_branch_verify env.hash2 (env.htr_committee u.current_sync_committee)
        u.current_sync_committee_branch CURRENT_SYNC_COMMITTEE_INDEX
        u.header.state_root with
    | .error e => .error e
    | .ok _ => .ok { s with phase := .Synced (bootstrap_store u) }

/-- Modelled from the spec (§4.4): `force_checkpoint` — administrative
re-bootstrap from any phase, bypassing the period/slot monotonicity checks
but still verifying the committee branch. -/
def force_checkpoint (env : Env) (s : ChainState) (u : InitialSync) :
    Except BeaconError ChainState :=
  match merkle_branch_verify env.hash2 (env.htr_committee u.current_sync_committee)
      u.current_sync_committee_branch CURRENT_SYNC_COMMITTEE_INDEX
      u.header.state_root with
  | .error e => .error e
  | .ok _ => .ok { s with phase := .Synced (bootstrap_store u) }

/-- Modelled from the spec (§4.4): `submit_sync_committee_update` — valid
only from `Synced`; weak-subjectivity window, aggregate signature against
the *current* committee, finality branch and next-committee branch against
the attested state root, period must advance by exactly 1, finalized slot
must strictly increase; on success the committees rotate and the period is
incremented. -/
def submit_sync_committee_update (env : Env) (now : Nat) (s : ChainState)
    (u : SyncCommitteePeriodUpdate) : Except BeaconError ChainState :=
  match s.phase with
  | .Uninitialized => .error .NotBootstrapped
  | .Synced st =>
    if env.within_weak_subjectivity now u.attested_header.slot = false then
      .error .StaleUpdate
    else
      match verify_sync_aggregate env st.current_sync_committee
          u.sync_aggregate u.attested_header u.signature_slot
          st.validators_root with
      | .error e => .error e
      | .ok _ =>
        match merkle_branch_verify env.hash2 (env.htr_header u.finalized_header)
            u.finality_branch FINALIZED_ROOT_INDEX
            u.attested_header.state_root with
        | .error e => .error e
        | .ok _ =>
          match merkle_branch_verify env.hash2
              (env.htr_committee u.next_sync_committee)
              u.next_sync_committee_branch NEXT_SYNC_COMMITTEE_INDEX
              u.attested_header.state_root with
          | .error e => .error e
          | .ok _ =>
            if u.sync_committee_period ≠ st.sync_committee_period + 1 then
              .error .SkippedSyncCommitteePeriod
            else if u.finalized_header.slot ≤ st.finalized_header.slot then
              .error .StaleUpdate
            else
              let st2 : LightClientStore :=
                { st with
                  current_sync_committee := st.next_sync_committee
                , next_sync_committee := u.next_sync_committee
                , finalized_header := u.finalized_header
                , sync_committee_period := st.sync_committee_period + 1 }
              .ok { s with phase := .Synced st2 }

/-- Modelled from the spec (§4.4): `submit_finalized_header_update` — valid
only from `Synced`; the same checks minus the committee-rotation fields;
the update's period must equal the stored period and the finalized slot
must strictly increase; on success only the finalized header advances. -/
def submit_finalized_header_update (env : Env) (now : Nat) (s : ChainState)
    (u : FinalizedHeaderUpdate) : Except BeaconError ChainState :=
  match s.phase with
  | .Uninitialized => .error .NotBootstrapped
  | .Synced st =>
    if env.within_weak_subjectivity now u.attested_header.slot = false then
      .error .StaleUpdate
    else
      match verify_sync_aggregate env st.current_sync_committee
          u.sync_aggregate u.attested_header u.signature_slot
          st.validators_root with
      | .error e => .error e
      | .ok _ =>
        match merkle_branch_verify env.hash2 (env.htr_header u.finalized_header)
            u.finality_branch FINALIZED_ROOT_INDEX
            u.attested_header.state_root with
        | .error e => .error e
        | .ok _ =>
          if u.sync_committee_period ≠ st.sync_committee_period then
            .error .SkippedSyncCommitteePeriod
          else if u.finalized_header.slot ≤ st.finalized_header.slot then
            .error .StaleUpdate
          else
            let st2 : LightClientStore :=
              { st with finalized_header := u.finalized_header }
            .ok { s with phase := .Synced st2 }

/-- Modelled from the spec (§4.5): append the new entry and evict the
oldest if the capacity `MaxFinalizedHeaderSlotArray` is exceeded. -/
def exec_headers_insert (hs : List (H256 × CompactExecutionHeader))
    (k : H256) (v : CompactExecutionHeader) :
    List (H256 × CompactExecutionHeader) :=
  let hs2 := hs ++ [(k, v)]
  if MaxFinalizedHeaderSlotArray < hs2.length then hs2.tail else hs2

/-- Modelled from the spec (§4.4): `submit_execution_header_update` — valid
only from `Synced`; verifies the execution-payload inclusion branch against
the *stored* finalized header's body root; rejects duplicate block hashes;
on success inserts the compact projection, evicting the oldest entry if at
capacity. -/
def submit_execution_header_update (env : Env) (s : ChainState)
    (u : HeaderUpdate) : Except BeaconError ChainState :=
  match s.phase with
  | .Uninitialized => .error .NotBootstrapped
  | .Synced st =>
    match merkle_branch_verify env.hash2 (env.htr_execution u)
        u.execution_branch EXECUTION_PAYLOAD_INDEX
        st.finalized_header.body_root with
    | .error e => .error e
    | .ok _ =>
      if s.exec_headers.any (fun p => p.1 = u.block_hash) then
        .error .ExecutionHeaderAlreadyImported
      else
        .ok { s with exec_headers :=
          exec_headers_insert s.exec_headers u.block_hash u.toCompact }

/-- The five submission calls of the core-exposed interface (spec §6).
`now` is the time-source reading used by the weak-subjectivity check. -/
inductive Call where
  | initial_sync (u : InitialSync)
  | sync_committee_update (now : Nat) (u : SyncCommitteePeriodUpdate)
  | finalized_header_update (now : Nat) (u : FinalizedHeaderUpdate)
  | execution_header_update (u : HeaderUpdate)
  | checkpoint (u : InitialSync)
deriving DecidableEq

/-- Dispatch a call to its submission function. -/
def dispatch (env : Env) (s : ChainState) : Call → Except BeaconError ChainState
  | .initial_sync u => submit_initial_sync env s u
  | .sync_committee_update now u => submit_sync_committee_update env now s u
  | .finalized_header_update now u => submit_finalized_header_update env now s u
  | .execution_header_update u => submit_execution_header_update env s u
  | .checkpoint u => force_checkpoint env s u

/-- One observable step: Substrate dispatches extrinsics transactionally,
so the state seen by the caller after a failed call is the prior state;
the returned pair is (state after the call, error if any). -/
def step (env : Env) (s : ChainState) (c : Call) :
    ChainState × Option BeaconError :=
  match dispatch env s c with
  | .ok s2 => (s2, none)
  | .error e => (s, some e)

/-!
## Theorems
-/

/-- C5 counterexample: the minimal-runtime `ChainForkVersions` constant sets
all four fork epochs to 0, so its fork list is *not* ordered by strictly
ascending epoch. -/
theorem chainForkVersionsMinimal_not_strictly_ascending :
    ¬ strictAscendingEpochs chainForkVersionsMinimal := by
  decide

/-- C5 (amended): each configured fork schedule lists genesis, altair,
bellatrix, capella ordered by non-decreasing epoch; the mainnet schedule is
strictly ascending, while the minimal schedule activates all four forks at
epoch 0. -/
theorem chainForkVersions_epoch_ordering :
    nonDecreasingEpochs chainForkVersionsMinimal ∧
    nonDecreasingEpochs chainForkVersionsMainnet ∧
    strictAscendingEpochs chainForkVersionsMainnet ∧
    chainForkVersionsMinimal.genesis.epoch = 0 ∧
    chainForkVersionsMinimal.capella.epoch = 0 := by
  decide

/-- C6: the fork resolver fails with `ForkVersionNotFound` exactly on the
empty schedule; over any `ForkVersions` struct (always four entries) it is
total — in particular resolution at every slot succeeds for both configured
`ChainForkVersions` constants. -/
theorem fork_version_resolution_total :
    (∀ (schedule : List Fork) (epoch : Nat) (e : BeaconError),
        select_fork schedule epoch = .error e ↔
          schedule = [] ∧ e = .ForkVersionNotFound) ∧
    (∀ (fv : ForkVersions) (epoch : Nat),
        ∃ v, compute_fork_version fv epoch = .ok v) ∧
    (∀ slot spe : Nat, ∃ v,
        compute_fork_version chainForkVersionsMinimal
          (compute_epoch_at_slot slot spe) = .ok v) ∧
    (∀ slot spe : Nat, ∃ v,
        compute_fork_version chainForkVersionsMainnet
          (compute_epoch_at_slot slot spe) = .ok v) := by
  have htot : ∀ (fv : ForkVersions) (epoch : Nat),
      ∃ v, compute_fork_version fv epoch = .ok v := by
    intro fv epoch
    rcases select_fork_ok_of_cons fv.genesis
        [fv.altair, fv.bellatrix, fv.capella] epoch with ⟨g, hg⟩
    refine ⟨g.version, ?_⟩
    unfold compute_fork_version forkScheduleList
    rw [hg]
    rfl
  refine ⟨?_, htot, fun slot spe => htot _ _, fun slot spe => htot _ _⟩
  intro schedule epoch e
  constructor
  · intro h
    cases schedule with
    | nil =>
      refine ⟨rfl, ?_⟩
      simp [select_fork] at h
      exact h.symm
    | cons f rest =>
      rcases select_fork_ok_of_cons f rest epoch with ⟨g, hg⟩
      rw [hg] at h
      cases h
  · rintro ⟨rfl, rfl⟩
    rfl

/-- C7: `MaxProofBranchSize` is configured as 20 in both runtimes, and every
call of the Merkle verifier with a branch longer than that is rejected as
`InvalidMerkleProof` for *every* hash function — i.e. before any hash
computation can matter. -/
theorem merkle_branch_length_guard :
    MaxProofBranchSize = 20 ∧
    ∀ (hash2 : H256 → H256 → H256) (leaf : H256) (branch : List H256)
      (index : Nat) (root : H256), 20 < branch.length →
        merkle_branch_verify hash2 leaf branch index root =
          .error .InvalidMerkleProof := by
  refine ⟨rfl, ?_⟩
  intro hash2 leaf branch index root h
  have h2 : MaxProofBranchSize < branch.length := h
  simp [merkle_branch_verify, h2]

/-- C7 witness: a 21-entry branch is rejected, whatever the hash. -/
theorem merkle_branch_length_guard_witness :
    20 < (List.replicate 21 ([] : H256)).length ∧
    merkle_branch_verify (fun a b => a ++ b) [] (List.replicate 21 []) 0 [] =
      .error .InvalidMerkleProof :=
  ⟨by decide, merkle_branch_length_guard.2 (fun a b => a ++ b) [] _ 0 []
    (by decide)⟩

/-- C8: the default `()` `WeightInfo` of the beacon client consists of
nullary constants (hence input-independent), `force_checkpoint` coincides
with `submit_with_sync_committee` — reference time 175039777000 plus 4
database reads and 2 database writes — and every function equals a closed
literal weight. -/
theorem beacon_weights_constant :
    BeaconWeightInfo.force_checkpoint =
        BeaconWeightInfo.submit_with_sync_committee ∧
    BeaconWeightInfo.force_checkpoint =
        ((Weight.from_parts 175039777000 0).saturating_add
          (RocksDbWeight.reads 4)).saturating_add (RocksDbWeight.writes 2) ∧
    BeaconWeightInfo.force_checkpoint = Weight.mk 175339777000 0 ∧
    BeaconWeightInfo.submit = Weight.mk 172046518000 0 ∧
    BeaconWeightInfo.submit_execution_header = Weight.mk 166186885000 0 := by
  refine ⟨rfl, rfl, ?_, ?_, ?_⟩ <;> rfl

/-- C9: both `on_commit` weight functions of `basic_channel::outbound` are
monotone non-decreasing, component-wise, in the message count and payload
size, for every database weight configuration. -/
theorem on_commit_monotone (db : RuntimeDbWeight) (m m2 p p2 : Nat)
    (hm : m ≤ m2) (hp : p ≤ p2) :
    Weight.le (SnowbridgeWeight.on_commit db m p)
        (SnowbridgeWeight.on_commit db m2 p2) ∧
    Weight.le (UnitWeightInfo.on_commit m p)
        (UnitWeightInfo.on_commit m2 p2) := by
  have hmul1 : 100849000 * m ≤ 100849000 * m2 := Nat.mul_le_mul_left _ hm
  have hmul2 : 3880000 * p ≤ 3880000 * p2 := Nat.mul_le_mul_left _ hp
  constructor <;>
    simp [SnowbridgeWeight.on_commit, UnitWeightInfo.on_commit, RocksDbWeight,
      Weight.saturating_add, Weight.saturating_mul, Weight.from_ref_time,
      RuntimeDbWeight.reads, RuntimeDbWeight.writes, Weight.le,
      satAdd, satMul, U64_MAX] <;>
    omega

/-- C9 witness: monotonicity at a concrete instance. -/
theorem on_commit_monotone_witness :
    (1 : Nat) ≤ 2 ∧ (3 : Nat) ≤ 4 ∧
    (Weight.le (SnowbridgeWeight.on_commit RocksDbWeight 1 3)
        (SnowbridgeWeight.on_commit RocksDbWeight 2 4) ∧
     Weight.le (UnitWeightInfo.on_commit 1 3)
        (UnitWeightInfo.on_commit 2 4)) :=
  ⟨by decide, by decide,
    on_commit_monotone RocksDbWeight 1 2 3 4 (by decide) (by decide)⟩

/-- C10: in the inbound-queue benchmark fixture, the key list of the receipt
proof is exactly one 32-byte hash, equal to the receipts root of the
fixture's stored compact execution header. -/
theorem make_create_message_receipts_root_consistent :
    make_create_message.message.proof.data.1 =
      [make_create_message.execution_header.receipts_root] ∧
    make_create_message.execution_header.receipts_root.length = 32 := by
  constructor
  · rfl
  · rfl

/-- Helper: the full sync-aggregate verifier reports
`InsufficientSyncCommitteeParticipants` exactly when the participation
check fails; no later stage produces that error. -/
theorem verify_sync_aggregate_insufficient_iff (env : Env)
    (committee : SyncCommittee) (agg : SyncAggregate)
    (attested : BeaconHeader) (slot : Nat) (vr : H256) :
    verify_sync_aggregate env committee agg attested slot vr =
        .error .InsufficientSyncCommitteeParticipants ↔
      3 * sync_committee_participation agg.sync_committee_bits ≤
        2 * SYNC_COMMITTEE_SIZE := by
  by_cases hc : 2 * SYNC_COMMITTEE_SIZE <
      3 * sync_committee_participation agg.sync_committee_bits
  · have hcp : check_participation agg.sync_committee_bits
        SYNC_COMMITTEE_SIZE = .ok () := by
      simp [check_participation, hc]
    rcases select_fork_ok_of_cons env.fork_versions.genesis
        [env.fork_versions.altair, env.fork_versions.bellatrix,
          env.fork_versions.capella]
        (compute_epoch_at_slot slot env.slots_per_epoch) with ⟨g, hg⟩
    have hcf : compute_fork_version env.fork_versions
        (compute_epoch_at_slot slot env.slots_per_epoch) = .ok g.version := by
      unfold compute_fork_version forkScheduleList
      rw [hg]
      rfl
    rcases hap : env.aggregate_points
        (participant_pubkeys committee.pubkeys agg.sync_committee_bits) with
      _ | apk
    · simp [verify_sync_aggregate, hcp, hcf, hap]
      omega
    · by_cases hb : env.bls_verify apk agg.sync_committee_signature
          (env.hash2 (env.htr_header attested)
            (compute_domain env.hash32 g.version vr)) = true
      · simp [verify_sync_aggregate, hcp, hcf, hap, hb]
        omega
      · simp [verify_sync_aggregate, hcp, hcf, hap, hb]
        omega
  · have hcp : check_participation agg.sync_committee_bits
        SYNC_COMMITTEE_SIZE =
          .error .InsufficientSyncCommitteeParticipants := by
      simp [check_participation, hc]
    simp [verify_sync_aggregate, hcp]
    omega

/-- C4: the sync-committee verifier rejects with
`InsufficientSyncCommitteeParticipants` exactly when the popcount of the
participation bits is ≤ two thirds of the configured committee size 512;
at the boundary, 342 participating bits pass the participation check and
341 are rejected. -/
theorem participation_supermajority_boundary :
    (∀ (env : Env) (committee : SyncCommittee) (agg : SyncAggregate)
        (attested : BeaconHeader) (slot : Nat) (vr : H256),
      verify_sync_aggregate env committee agg attested slot vr =
          .error .InsufficientSyncCommitteeParticipants ↔
        3 * sync_committee_participation agg.sync_committee_bits ≤
          2 * SYNC_COMMITTEE_SIZE) ∧
    SYNC_COMMITTEE_SIZE = 512 ∧
    check_participation (List.replicate 342 true ++ List.replicate 170 false)
        512 = .ok () ∧
    check_participation (List.replicate 341 true ++ List.replicate 171 false)
        512 = .error .InsufficientSyncCommitteeParticipants := by
  refine ⟨verify_sync_aggregate_insufficient_iff, rfl, ?_, ?_⟩
  · have h342 : sync_committee_participation
        (List.replicate 342 true ++ List.replicate 170 false) = 342 := by
      unfold sync_committee_participation
      rw [List.count_append, List.count_replicate_self, List.count_replicate]
      norm_num
    simp only [check_participation, h342]
    norm_num
  · have h341 : sync_committee_participation
        (List.replicate 341 true ++ List.replicate 171 false) = 341 := by
      unfold sync_committee_participation
      rw [List.count_append, List.count_replicate_self, List.count_replicate]
      norm_num
    simp only [check_participation, h341]
    norm_num

/-- C1: every submission call that returns an error leaves the whole
observable state — every `LightClientState` field and the execution-header
store — exactly as it was before the call. -/
theorem submission_error_leaves_state_unchanged (env : Env) (s : ChainState)
    (c : Call) (s2 : ChainState) (e : BeaconError)
    (h : step env s c = (s2, some e)) : s2 = s := by
  unfold step at h
  cases hd : dispatch env s c with
  | ok s3 => rw [hd] at h; cases h
  | error e2 => rw [hd] at h; cases h; rfl

/-- A concrete environment with trivial cryptographic functions, used to
exhibit concrete runs of the model (anything verifies, every hash is the
empty byte string, the minimal fork schedule). -/
def testEnv : Env :=
  { hash2 := fun _ _ => []
  , hash32 := fun _ => []
  , htr_header := fun _ => []
  , htr_committee := fun _ => []
  , htr_execution := fun _ => []
  , aggregate_points := fun _ => some []
  , bls_verify := fun _ _ _ => true
  , fork_versions := chainForkVersionsMinimal
  , slots_per_epoch := 8
  , within_weak_subjectivity := fun _ _ => true }

/-- A beacon header with a given slot and empty roots. -/
def testHeader (k : Nat) : BeaconHeader := ⟨k, 0, [], [], []⟩

/-- The empty sync committee. -/
def testCommittee : SyncCommittee := ⟨[], []⟩

/-- An aggregate with 342 participation bits set (a strict supermajority of
512). -/
def testAggregate : SyncAggregate := ⟨List.replicate 342 true, []⟩

/-- A concrete synced store at finalized slot 0, period 0. -/
def testStore : LightClientStore := ⟨[], testCommittee, testCommittee, testHeader 0, 0⟩

/-- A concrete synced chain state with an empty header store. -/
def testState : ChainState := ⟨.Synced testStore, []⟩

/-- The uninitialized chain state. -/
def uninitState : ChainState := ⟨.Uninitialized, []⟩

/-- A sync-committee period update for period 1, finalized slot 1, with
empty branches (which verify under `testEnv`). -/
def testPeriodUpdate : SyncCommitteePeriodUpdate :=
  { attested_header := testHeader 2
  , next_sync_committee := testCommittee
  , next_sync_committee_branch := []
  , finalized_header := testHeader 1
  , finality_branch := []
  , sync_aggregate := testAggregate
  , signature_slot := 3
  , sync_committee_period := 1 }

/-- The same update asking for period 2 (a skipped period). -/
def testSkippedUpdate : SyncCommitteePeriodUpdate :=
  { testPeriodUpdate with sync_committee_period := 2 }

/-- A finalized-header update for slot 1 in period 0. -/
def testFinalizedUpdate : FinalizedHeaderUpdate :=
  { attested_header := testHeader 2
  , finalized_header := testHeader 1
  , finality_branch := []
  , sync_aggregate := testAggregate
  , signature_slot := 3
  , sync_committee_period := 0 }

/-- C1 witness: a concrete failing call (a period update before bootstrap)
returns `NotBootstrapped` and leaves the state unchanged. -/
theorem submission_error_leaves_state_unchanged_witness :
    step testEnv uninitState (Call.sync_committee_update 0 testPeriodUpdate) =
      (uninitState, some .NotBootstrapped) ∧ uninitState = uninitState :=
  ⟨rfl, submission_error_leaves_state_unchanged testEnv uninitState
    (Call.sync_committee_update 0 testPeriodUpdate) uninitState
    .NotBootstrapped rfl⟩

/-- Helper: inversion of a successful `submit_finalized_header_update` — it
succeeds exactly when all the checks of §4.4 pass, and then the only state
change is the finalized header. -/
theorem submit_finalized_header_update_ok_iff (env : Env) (now : Nat)
    (s : ChainState) (u : FinalizedHeaderUpdate) (s2 : ChainState) :
    submit_finalized_header_update env now s u = .ok s2 ↔
      ∃ st, s.phase = .Synced st ∧
        env.within_weak_subjectivity now u.attested_header.slot = true ∧
        verify_sync_aggregate env st.current_sync_committee u.sync_aggregate
          u.attested_header u.signature_slot st.validators_root = .ok () ∧
        merkle_branch_verify env.hash2 (env.htr_header u.finalized_header)
          u.finality_branch FINALIZED_ROOT_INDEX
          u.attested_header.state_root = .ok () ∧
        u.sync_committee_period = st.sync_committee_period ∧
        st.finalized_header.slot < u.finalized_header.slot ∧
        s2 = ChainState.mk (LightClientPhase.Synced
              { st with finalized_header := u.finalized_header })
            s.exec_headers := by
  rcases s with ⟨ph, eh⟩
  cases ph with
  | Uninitialized => simp [submit_finalized_header_update]
  | Synced st =>
    simp only [submit_finalized_header_update]
    cases hw : env.within_weak_subjectivity now u.attested_header.slot with
    | false => simp [hw]
    | true =>
      simp only [hw]
      cases hv : verify_sync_aggregate env st.current_sync_committee
          u.sync_aggregate u.attested_header u.signature_slot
          st.validators_root with
      | error e => simp [hv]
      | ok uv =>
        cases uv
        cases hm : merkle_branch_verify env.hash2
            (env.htr_header u.finalized_header) u.finality_branch
            FINALIZED_ROOT_INDEX u.attested_header.state_root with
        | error e => simp [hv, hm]
        | ok um =>
          cases um
          by_cases hper : u.sync_committee_period = st.sync_committee_period
          · by_cases hslot : u.finalized_header.slot ≤ st.finalized_header.slot
            · simp [hv, hm, hper, hslot]
            · have hlt : st.finalized_header.slot < u.finalized_header.slot :=
                Nat.lt_of_not_le fun hx => hslot (Nat.le_of_lt_succ
                  (Nat.lt_succ_of_le hx))
              simp [hv, hm, hper, hslot, hlt, eq_comm]
          · simp [hv, hm, hper]

/-- Helper: inversion of a successful `submit_sync_committee_update` — it
succeeds exactly when all the checks of §4.4 pass, and then the committees
rotate, the finalized header advances and the period increments. -/
theorem submit_sync_committee_update_ok_iff (env : Env) (now : Nat)
    (s : ChainState) (u : SyncCommitteePeriodUpdate) (s2 : ChainState) :
    submit_sync_committee_update env now s u = .ok s2 ↔
      ∃ st, s.phase = .Synced st ∧
        env.within_weak_subjectivity now u.attested_header.slot = true ∧
        verify_sync_aggregate env st.current_sync_committee u.sync_aggregate
          u.attested_header u.signature_slot st.validators_root = .ok () ∧
        merkle_branch_verify env.hash2 (env.htr_header u.finalized_header)
          u.finality_branch FINALIZED_ROOT_INDEX
          u.attested_header.state_root = .ok () ∧
        merkle_branch_verify env.hash2
          (env.htr_committee u.next_sync_committee)
          u.next_sync_committee_branch NEXT_SYNC_COMMITTEE_INDEX
          u.attested_header.state_root = .ok () ∧
        u.sync_committee_period = st.sync_committee_period + 1 ∧
        st.finalized_header.slot < u.finalized_header.slot ∧
        s2 = ChainState.mk (LightClientPhase.Synced
              { st with
                current_sync_committee := st.next_sync_committee
              , next_sync_committee := u.next_sync_committee
              , finalized_header := u.finalized_header
              , sync_committee_period := st.sync_committee_period + 1 })
            s.exec_headers := by
  rcases s with ⟨ph, eh⟩
  cases ph with
  | Uninitialized => simp [submit_sync_committee_update]
  | Synced st =>
    simp only [submit_sync_committee_update]
    cases hw : env.within_weak_subjectivity now u.attested_header.slot with
    | false => simp [hw]
    | true =>
      simp only [hw]
      cases hv : verify_sync_aggregate env st.current_sync_committee
          u.sync_aggregate u.attested_header u.signature_slot
          st.validators_root with
      | error e => simp [hv]
      | ok uv =>
        cases uv
        cases hm : merkle_branch_verify env.hash2
            (env.htr_header u.finalized_header) u.finality_branch
            FINALIZED_ROOT_INDEX u.attested_header.state_root with
        | error e => simp [hv, hm]
        | ok um =>
          cases um
          cases hm2 : merkle_branch_verify env.hash2
              (env.htr_committee u.next_sync_committee)
              u.next_sync_committee_branch NEXT_SYNC_COMMITTEE_INDEX
              u.attested_header.state_root with
          | error e => simp [hv, hm, hm2]
          | ok um2 =>
            cases um2
            by_cases hper : u.sync_committee_period =
                st.sync_committee_period + 1
            · by_cases hslot : u.finalized_header.slot ≤
                  st.finalized_header.slot
              · simp [hv, hm, hm2, hper, hslot]
              · have hlt : st.finalized_header.slot <
                    u.finalized_header.slot :=
                  Nat.lt_of_not_le fun hx => hslot (Nat.le_of_lt_succ
                    (Nat.lt_succ_of_le hx))
                simp [hv, hm, hm2, hper, hslot, hlt, eq_comm]
            · simp [hv, hm, hm2, hper]

/-- C2: any update accepted from `Synced` (committee update or finalized
header update) carries a finalized slot strictly above the stored one and
stores exactly that slot (so the finalized slot never decreases), and
replaying an accepted finalized-header update is rejected with
`StaleUpdate`, leaving the state unchanged. -/
theorem accepted_updates_advance_finalized_slot (env : Env) (now : Nat)
    (s : ChainState) (st : LightClientStore) (u : SyncCommitteePeriodUpdate)
    (v : FinalizedHeaderUpdate) (hs : s.phase = .Synced st) :
    (∀ s2, submit_sync_committee_update env now s u = .ok s2 →
        st.finalized_header.slot < u.finalized_header.slot ∧
        ∃ st2, s2.phase = .Synced st2 ∧
          st2.finalized_header.slot = u.finalized_header.slot) ∧
    (∀ s2, submit_finalized_header_update env now s v = .ok s2 →
        st.finalized_header.slot < v.finalized_header.slot ∧
        ∃ st2, s2.phase = .Synced st2 ∧
          st2.finalized_header.slot = v.finalized_header.slot) ∧
    (∀ s2, submit_finalized_header_update env now s v = .ok s2 →
        step env s2 (Call.finalized_header_update now v) =
          (s2, some .StaleUpdate)) := by
  refine ⟨?_, ?_, ?_⟩
  · intro s2 h
    rw [submit_sync_committee_update_ok_iff] at h
    rcases h with ⟨st', hph, hw, hv, hm, hm2, hper, hlt, rfl⟩
    rw [hs] at hph
    cases hph
    exact ⟨hlt, _, rfl, rfl⟩
  · intro s2 h
    rw [submit_finalized_header_update_ok_iff] at h
    rcases h with ⟨st', hph, hw, hv, hm, hper, hlt, rfl⟩
    rw [hs] at hph
    cases hph
    exact ⟨hlt, _, rfl, rfl⟩
  · intro s2 h
    rw [submit_finalized_header_update_ok_iff] at h
    rcases h with ⟨st', hph, hw, hv, hm, hper, hlt, rfl⟩
    have hsub : submit_finalized_header_update env now
        (ChainState.mk (LightClientPhase.Synced
          { st' with finalized_header := v.finalized_header })
          s.exec_headers) v = .error .StaleUpdate := by
      simp [submit_finalized_header_update, hw, hv, hm, hper]
    simp [step, dispatch, hsub]

/-- C3: a sync-committee update is accepted only when its period is exactly
the stored period plus one (any other period — given the preceding checks
pass — is rejected with `SkippedSyncCommitteePeriod`); on acceptance the
stored period becomes exactly the old period plus one and the current
committee is replaced by the previously stored next committee. -/
theorem sync_committee_period_advances_by_exactly_one (env : Env)
    (now : Nat) (s : ChainState) (u : SyncCommitteePeriodUpdate) :
    (∀ s2 st, s.phase = .Synced st →
        submit_sync_committee_update env now s u = .ok s2 →
        u.sync_committee_period = st.sync_committee_period + 1 ∧
        ∃ st2, s2.phase = .Synced st2 ∧
          st2.sync_committee_period = st.sync_committee_period + 1 ∧
          st2.current_sync_committee = st.next_sync_committee ∧
          st2.next_sync_committee = u.next_sync_committee) ∧
    (∀ st, s.phase = .Synced st →
        env.within_weak_subjectivity now u.attested_header.slot = true →
        verify_sync_aggregate env st.current_sync_committee u.sync_aggregate
          u.attested_header u.signature_slot st.validators_root = .ok () →
        merkle_branch_verify env.hash2 (env.htr_header u.finalized_header)
          u.finality_branch FINALIZED_ROOT_INDEX
          u.attested_header.state_root = .ok () →
        merkle_branch_verify env.hash2
          (env.htr_committee u.next_sync_committee)
          u.next_sync_committee_branch NEXT_SYNC_COMMITTEE_INDEX
          u.attested_header.state_root = .ok () →
        u.sync_committee_period ≠ st.sync_committee_period + 1 →
        submit_sync_committee_update env now s u =
          .error .SkippedSyncCommitteePeriod) := by
  constructor
  · intro s2 st hs h
    rw [submit_sync_committee_update_ok_iff] at h
    rcases h with ⟨st', hph, hw, hv, hm, hm2, hper, hlt, rfl⟩
    rw [hs] at hph
    cases hph
    exact ⟨hper, _, rfl, rfl, rfl, rfl⟩
  · intro st hs hw hv hm hm2 hper
    rcases s with ⟨ph, eh⟩
    simp only at hs
    subst hs
    simp [submit_sync_committee_update, hw, hv, hm, hm2, hper]

/-- The state after `testFinalizedUpdate` is accepted from `testState`. -/
def testStateAfterFinalized : ChainState :=
  ChainState.mk (LightClientPhase.Synced
    ⟨[], testCommittee, testCommittee, testHeader 1, 0⟩) []

/-- The state after `testPeriodUpdate` is accepted from `testState`. -/
def testStateAfterPeriod : ChainState :=
  ChainState.mk (LightClientPhase.Synced
    ⟨[], testCommittee, testCommittee, testHeader 1, 1⟩) []

/-- C2 witness: a concrete accepted finalized-header update advances the
finalized slot from 0 to 1 and its replay yields `StaleUpdate` with the
state kept. -/
theorem accepted_updates_advance_finalized_slot_witness :
    testState.phase = LightClientPhase.Synced testStore ∧
    submit_finalized_header_update testEnv 0 testState testFinalizedUpdate =
      .ok testStateAfterFinalized ∧
    (testStore.finalized_header.slot <
        testFinalizedUpdate.finalized_header.slot ∧
      ∃ st2, testStateAfterFinalized.phase = .Synced st2 ∧
        st2.finalized_header.slot =
          testFinalizedUpdate.finalized_header.slot) ∧
    step testEnv testStateAfterFinalized
        (Call.finalized_header_update 0 testFinalizedUpdate) =
      (testStateAfterFinalized, some .StaleUpdate) :=
  ⟨rfl, rfl,
    (accepted_updates_advance_finalized_slot testEnv 0 testState testStore
      testPeriodUpdate testFinalizedUpdate rfl).2.1
      testStateAfterFinalized rfl,
    (accepted_updates_advance_finalized_slot testEnv 0 testState testStore
      testPeriodUpdate testFinalizedUpdate rfl).2.2
      testStateAfterFinalized rfl⟩

/-- C3 witness: a concrete period-1 update is accepted from period 0 and
rotates the committees; the same update asking for period 2 is rejected
with `SkippedSyncCommitteePeriod`. -/
theorem sync_committee_period_advances_by_exactly_one_witness :
    (testPeriodUpdate.sync_committee_period =
        testStore.sync_committee_period + 1 ∧
      ∃ st2, testStateAfterPeriod.phase = .Synced st2 ∧
        st2.sync_committee_period = testStore.sync_committee_period + 1 ∧
        st2.current_sync_committee = testStore.next_sync_committee ∧
        st2.next_sync_committee = testPeriodUpdate.next_sync_committee) ∧
    submit_sync_committee_update testEnv 0 testState testSkippedUpdate =
      .error .SkippedSyncCommitteePeriod :=
  ⟨(sync_committee_period_advances_by_exactly_one testEnv 0 testState
      testPeriodUpdate).1 testStateAfterPeriod testStore rfl rfl,
    (sync_committee_period_advances_by_exactly_one testEnv 0 testState
      testSkippedUpdate).2 testStore rfl rfl rfl rfl rfl (by decide)⟩
